import Mathlib

/-!
Verification of the `get_img` PDF-viewer component.

The repository has two source variants of the same Angular component:
`src/unnamed/part_000` (referred to as `PartA` below, with fields
`currentPage`/`totalPages` and the page-bounds guard inside `renderPage`)
and `src/src/app/app.component copy.ts` (referred to as `CopyB` below,
with field `pageNum` and the guards inside the navigation methods).

The crop machinery (`startCrop`, `onMouseMove`, `endCrop`, `cropImage`,
`getImageData`) is textually identical in the two variants, so it is
modelled once.  Mouse coordinates and canvas dimensions are modelled as
integers; a canvas is its dimensions together with a pixel function, and
`getImageData` follows the HTML canvas semantics of returning transparent
black outside the source canvas bounds.
-/

/-- An RGBA pixel, as stored in canvas image data. -/
structure Pixel where
  r : Nat
  g : Nat
  b : Nat
  a : Nat
deriving DecidableEq

/-- The pixel returned by `getImageData` outside the canvas bounds. -/
def Pixel.transparentBlack : Pixel := ⟨0, 0, 0, 0⟩

/-- The displayed page canvas (`pdfCanvas.nativeElement`): its dimensions
and its current pixel contents. -/
structure Canvas where
  width : Int
  height : Int
  pixelAt : Int → Int → Pixel

/-- The result of `ctx.getImageData`: a pixel rectangle of the stated
dimensions. -/
structure ImageData where
  width : Int
  height : Int
  pixelAt : Int → Int → Pixel

/-- `ctx.getImageData(sx, sy, sw, sh)` (for the positive `sw`, `sh` the code
reaches it with): pixel `(i, j)` of the result is pixel `(sx+i, sy+j)` of the
canvas, or transparent black when that point lies outside the canvas. -/
def getImageData (cv : Canvas) (sx sy sw sh : Int) : ImageData where
  width := sw
  height := sh
  pixelAt := fun i j =>
    if 0 ≤ sx + i ∧ sx + i < cv.width ∧ 0 ≤ sy + j ∧ sy + j < cv.height then
      cv.pixelAt (sx + i) (sy + j)
    else
      Pixel.transparentBlack

/-- The crop-related component fields: `cropStartX`, `cropStartY`,
`cropWidth`, `cropHeight`, `isSelecting`. -/
structure CropState where
  cropStartX : Int
  cropStartY : Int
  cropWidth : Int
  cropHeight : Int
  isSelecting : Bool
deriving DecidableEq

/-- `startCrop(event)`: begin selecting at the mouse offset, resetting the
width/height delta to zero.  Every field is overwritten, so the previous
state is ignored. -/
def startCrop (_st : CropState) (offsetX offsetY : Int) : CropState where
  cropStartX := offsetX
  cropStartY := offsetY
  cropWidth := 0
  cropHeight := 0
  isSelecting := true

/-- `onMouseMove(event)`: while selecting, the width/height delta becomes the
signed distance from the crop start to the current mouse offset.  (The
canvas redraw and selection-box stroke touch only the displayed canvas, not
these fields.) -/
def onMouseMove (st : CropState) (offsetX offsetY : Int) : CropState :=
  if st.isSelecting then
    { st with
      cropWidth := offsetX - st.cropStartX
      cropHeight := offsetY - st.cropStartY }
  else
    st

/-- `cropImage()`: abort with a console error when the stored delta is not
strictly positive in both coordinates; otherwise extract the selected
rectangle of the displayed canvas (the cropped canvas dimensions are
`Math.abs` of the deltas, which at this point equal the deltas themselves).
Returns the image handed to `displayCroppedImage` (if any) and the list of
logged errors. -/
def cropImage (st : CropState) (canvasElement : Canvas) :
    Option ImageData × List String :=
  if st.cropWidth ≤ 0 ∨ st.cropHeight ≤ 0 then
    (none, ["Invalid crop area"])
  else
    (some (getImageData canvasElement st.cropStartX st.cropStartY
        st.cropWidth st.cropHeight), [])

/-- The observable outcome of `endCrop()`: the component's crop fields
afterwards, the exported image (if any), the logged errors, and whether
`cropImage` was invoked at all. -/
structure EndCropResult where
  cropState : CropState
  output : Option ImageData
  log : List String
  exportInvoked : Bool

/-- `endCrop()`: a zero width or height delta clears `isSelecting` and
returns without calling `cropImage`; otherwise `isSelecting` is cleared and
`cropImage` runs on the stored rectangle. -/
def endCrop (st : CropState) (canvasElement : Canvas) : EndCropResult :=
  if st.cropWidth = 0 ∨ st.cropHeight = 0 then
    { cropState := { st with isSelecting := false }
      output := none
      log := []
      exportInvoked := false }
  else
    let r := cropImage { st with isSelecting := false } canvasElement
    { cropState := { st with isSelecting := false }
      output := r.1
      log := r.2
      exportInvoked := true }

namespace PartA

/-- The page-navigation fields of `src/unnamed/part_000`: `currentPage` and
`totalPages`. -/
structure NavState where
  currentPage : Int
  totalPages : Int
deriving DecidableEq

/-- `renderPage(pageNumber)` of `part_000`: a page number outside
`1 .. totalPages` is rejected and the state is unchanged; otherwise
`currentPage` is updated and the page is rendered. -/
def renderPage (s : NavState) (pageNumber : Int) : NavState :=
  if pageNumber < 1 ∨ pageNumber > s.totalPages then
    s
  else
    { s with currentPage := pageNumber }

/-- `goToPreviousPage()` of `part_000`: when above page 1, render
`currentPage - 1`. -/
def goToPreviousPage (s : NavState) : NavState :=
  if s.currentPage > 1 then renderPage s (s.currentPage - 1) else s

/-- `goToNextPage()` of `part_000`: when below the last page, render
`currentPage + 1`. -/
def goToNextPage (s : NavState) : NavState :=
  if s.currentPage < s.totalPages then renderPage s (s.currentPage + 1) else s

/-- `loadPdf(event)` of `part_000`, after the file is read and decoded:
set `totalPages` to the new document's page count, then call
`renderPage(this.currentPage)` — note: the previously held `currentPage`,
not page 1. -/
def loadPdf (s : NavState) (numPages : Int) : NavState :=
  renderPage { s with totalPages := numPages } s.currentPage

/-- A user operation on the `part_000` navigation state. -/
inductive Op where
  | load (numPages : Int)
  | next
  | prev
deriving DecidableEq

/-- One operation applied to the `part_000` navigation state. -/
def step (s : NavState) : Op → NavState
  | .load n => loadPdf s n
  | .next => goToNextPage s
  | .prev => goToPreviousPage s

/-- A sequence of operations applied in order. -/
def run (s : NavState) (ops : List Op) : NavState :=
  ops.foldl step s

/-- The component's initial navigation state: `currentPage = 1`,
`totalPages = 0`. -/
def init : NavState := ⟨1, 0⟩

end PartA

namespace CopyB

/-- `goToPreviousPage()` of `app.component copy.ts`: guard `pageNum <= 1`
inside the method, then decrement `pageNum` (its `renderPage` has no bounds
check and does not modify `pageNum`). -/
def goToPreviousPage (pageNum : Int) : Int :=
  if pageNum ≤ 1 then pageNum else pageNum - 1

/-- `goToNextPage()` of `app.component copy.ts`: guard
`pageNum >= pdfDoc.numPages` inside the method, then increment `pageNum`. -/
def goToNextPage (pageNum numPages : Int) : Int :=
  if pageNum ≥ numPages then pageNum else pageNum + 1

end CopyB

/-- A concrete 100×100 canvas used to instantiate universally quantified
theorems: pixel `(i, j)` records its own coordinates. -/
def testCanvas : Canvas where
  width := 100
  height := 100
  pixelAt := fun i j => ⟨i.toNat, j.toNat, 0, 255⟩

/-- A crop state with no selection in progress, as after construction. -/
def initialCrop : CropState := ⟨0, 0, 0, 0, false⟩

/-- Claim C3 (code bug): `loadPdf` does not reset the current page index to 1.
With the page index at 3 from a previous document, loading a new 5-page
document leaves `currentPage = 3` (the code renders `this.currentPage`,
despite its own comment "Render the first page"), while the total page count
is correctly set to the new document's page count. -/
theorem c3_load_does_not_reset_page :
    (PartA.loadPdf ⟨3, 5⟩ 5).currentPage = 3 ∧
    (PartA.loadPdf ⟨3, 5⟩ 5).currentPage ≠ 1 ∧
    (PartA.loadPdf ⟨3, 5⟩ 5).totalPages = 5 := by
  decide

/-- Claim C4: out-of-range page navigation is a no-op, in both variants.
In `part_000`, page-back at index 1 and page-forward at the last page leave
the whole navigation state (hence the rendered page) unchanged; the same
holds for `pageNum` in the copy variant. -/
theorem c4_out_of_range_nav_noop (s : PartA.NavState) (p n : Int) :
    (s.currentPage = 1 → PartA.goToPreviousPage s = s) ∧
    (s.currentPage = s.totalPages → PartA.goToNextPage s = s) ∧
    (p = 1 → CopyB.goToPreviousPage p = p) ∧
    (p = n → CopyB.goToNextPage p n = p) := by
  refine ⟨fun h1 => ?_, fun h2 => ?_, fun h3 => ?_, fun h4 => ?_⟩
  · simp [PartA.goToPreviousPage, h1]
  · simp [PartA.goToNextPage, h2]
  · simp [CopyB.goToPreviousPage, h3]
  · simp [CopyB.goToNextPage, h4]

theorem c4_out_of_range_nav_noop_witness :
    (PartA.goToPreviousPage ⟨1, 3⟩ = ⟨1, 3⟩) ∧
    (PartA.goToNextPage ⟨3, 3⟩ = ⟨3, 3⟩) ∧
    (CopyB.goToPreviousPage 1 = 1) ∧
    (CopyB.goToNextPage 3 3 = 3) :=
  ⟨(c4_out_of_range_nav_noop ⟨1, 3⟩ 1 1).1 rfl,
   (c4_out_of_range_nav_noop ⟨3, 3⟩ 1 1).2.1 rfl,
   (c4_out_of_range_nav_noop ⟨1, 3⟩ 1 1).2.2.1 rfl,
   (c4_out_of_range_nav_noop ⟨1, 3⟩ 3 3).2.2.2 rfl⟩

/-- Claim C6: page-forward followed by page-back is the identity on the
current page index whenever `1 ≤ currentPage < totalPages`, in both
variants. -/
theorem c6_next_prev_identity (s : PartA.NavState) (p n : Int)
    (hs1 : 1 ≤ s.currentPage) (hs2 : s.currentPage < s.totalPages)
    (hp1 : 1 ≤ p) (hp2 : p < n) :
    PartA.goToPreviousPage (PartA.goToNextPage s) = s ∧
    CopyB.goToPreviousPage (CopyB.goToNextPage p n) = p := by
  obtain ⟨c, t⟩ := s
  simp only [PartA.NavState.mk.injEq] at hs1 hs2
  constructor
  · simp only [PartA.goToNextPage, PartA.goToPreviousPage, PartA.renderPage]
    split_ifs <;> simp_all <;> omega
  · simp only [CopyB.goToNextPage, CopyB.goToPreviousPage]
    split_ifs <;> omega

theorem c6_next_prev_identity_witness :
    PartA.goToPreviousPage (PartA.goToNextPage ⟨1, 2⟩) = ⟨1, 2⟩ ∧
    CopyB.goToPreviousPage (CopyB.goToNextPage 1 2) = 1 :=
  c6_next_prev_identity ⟨1, 2⟩ 1 2 (by decide) (by decide) (by decide) (by decide)

/-- Claim C7 (code bug): the page-index bounds are not an invariant across
document loads.  Starting from the initial state, loading a 5-page document,
advancing four times to page 5 and then loading a 2-page document leaves
`currentPage = 5 > totalPages = 2`: `loadPdf` keeps the old index and
`renderPage` rejects it without clamping. -/
theorem c7_bounds_invariant_broken_by_load :
    (PartA.run PartA.init
        [.load 5, .next, .next, .next, .next, .load 2]).currentPage = 5 ∧
    (PartA.run PartA.init
        [.load 5, .next, .next, .next, .next, .load 2]).totalPages = 2 ∧
    ¬ (PartA.run PartA.init
        [.load 5, .next, .next, .next, .next, .load 2]).currentPage ≤
      (PartA.run PartA.init
        [.load 5, .next, .next, .next, .next, .load 2]).totalPages := by
  decide

/-- Claim C8, counterexample: the two navigation variants disagree on the
(reachable, see C7) out-of-range state with page index 5 and total 2:
`part_000`'s page-back leaves the index at 5 (its `renderPage` rejects the
target page 4), while the copy variant's page-back moves to 4. -/
theorem c8_variants_differ_out_of_range :
    (PartA.goToPreviousPage ⟨5, 2⟩).currentPage = 5 ∧
    CopyB.goToPreviousPage 5 = 4 ∧
    (PartA.goToPreviousPage ⟨5, 2⟩).currentPage ≠ CopyB.goToPreviousPage 5 := by
  decide

/-- Claim C8, amended: the two variants implement the same page navigation
on every in-range starting state: for `1 ≤ p ≤ n`, `goToNextPage` and
`goToPreviousPage` of `part_000` and of the copy variant produce the same
resulting page index. -/
theorem c8_variants_agree_in_range (p n : Int) (h1 : 1 ≤ p) (h2 : p ≤ n) :
    (PartA.goToNextPage ⟨p, n⟩).currentPage = CopyB.goToNextPage p n ∧
    (PartA.goToPreviousPage ⟨p, n⟩).currentPage = CopyB.goToPreviousPage p := by
  constructor
  · simp only [PartA.goToNextPage, PartA.renderPage, CopyB.goToNextPage]
    split_ifs <;> simp_all <;> omega
  · simp only [PartA.goToPreviousPage, PartA.renderPage, CopyB.goToPreviousPage]
    split_ifs <;> simp_all <;> omega

theorem c8_variants_agree_in_range_witness :
    (PartA.goToNextPage ⟨2, 3⟩).currentPage = CopyB.goToNextPage 2 3 ∧
    (PartA.goToPreviousPage ⟨2, 3⟩).currentPage = CopyB.goToPreviousPage 2 :=
  c8_variants_agree_in_range 2 3 (by decide) (by decide)

/-- Claim C1: a completed drag with positive deltas exports exactly the
selected rectangle.  Crop-start at `(x, y)`, a mouse-move to
`(x + w, y + h)` with `0 < w` and `0 < h`, and crop-end produce an output
image of width `w` and height `h` whose pixel `(i, j)` is pixel
`(x + i, y + j)` of the displayed page canvas, provided the drag stayed on
the canvas. -/
theorem c1_crop_export_exact (st : CropState) (x y w h : Int) (cv : Canvas)
    (hw : 0 < w) (hh : 0 < h) (hx : 0 ≤ x) (hy : 0 ≤ y)
    (hxw : x + w ≤ cv.width) (hyh : y + h ≤ cv.height) :
    ∃ img : ImageData,
      (endCrop (onMouseMove (startCrop st x y) (x + w) (y + h)) cv).output =
        some img ∧
      img.width = w ∧ img.height = h ∧
      ∀ i j : Int, 0 ≤ i → i < w → 0 ≤ j → j < h →
        img.pixelAt i j = cv.pixelAt (x + i) (y + j) := by
  have hmove : onMouseMove (startCrop st x y) (x + w) (y + h) =
      ⟨x, y, w, h, true⟩ := by
    simp [startCrop, onMouseMove]
  rw [hmove]
  refine ⟨getImageData cv x y w h, ?_, rfl, rfl, ?_⟩
  · dsimp only [endCrop, cropImage]
    split_ifs with h1 h2
    · omega
    · omega
    · rfl
  · intro i j hi1 hi2 hj1 hj2
    dsimp only [getImageData]
    rw [if_pos (by omega)]

theorem c1_crop_export_exact_witness :
    ∃ img : ImageData,
      (endCrop (onMouseMove (startCrop initialCrop 20 30) (20 + 50) (30 + 50))
          testCanvas).output = some img ∧
      img.width = 50 ∧ img.height = 50 ∧
      ∀ i j : Int, 0 ≤ i → i < 50 → 0 ≤ j → j < 50 →
        img.pixelAt i j = testCanvas.pixelAt (20 + i) (30 + j) :=
  c1_crop_export_exact initialCrop 20 30 50 50 testCanvas (by decide) (by decide)
    (by decide) (by decide) (by decide) (by decide)

/-- Claim C2, counterexample: a drag to the left (crop-start at `(10, 10)`,
mouse-move to `(5, 15)`, so deltas `-5` and `5`, both non-zero) produces no
output image at all — `cropImage` rejects non-positive deltas — contradicting
the claim that the export has dimensions `|−5| × |5|`. -/
theorem c2_negative_delta_no_output :
    (onMouseMove (startCrop initialCrop 10 10) 5 15).cropWidth = -5 ∧
    (onMouseMove (startCrop initialCrop 10 10) 5 15).cropHeight = 5 ∧
    (endCrop (onMouseMove (startCrop initialCrop 10 10) 5 15)
        testCanvas).output = none :=
  ⟨rfl, rfl, rfl⟩

/-- Claim C2, amended: for a completed drag with non-zero deltas `w`, `h`,
the export produces an image — of dimensions `w × h` (equal to
`|w| × |h|`) — exactly when both deltas are positive; a drag up or to the
left (a negative delta) aborts in `cropImage` and produces no output
image. -/
theorem c2_amended_positive_only (st : CropState) (x y w h : Int) (cv : Canvas)
    (hw : w ≠ 0) (hh : h ≠ 0) :
    (0 < w ∧ 0 < h →
      ∃ img : ImageData,
        (endCrop (onMouseMove (startCrop st x y) (x + w) (y + h)) cv).output =
          some img ∧
        img.width = w ∧ img.height = h) ∧
    (¬(0 < w ∧ 0 < h) →
      (endCrop (onMouseMove (startCrop st x y) (x + w) (y + h)) cv).output =
        none) := by
  have hmove : onMouseMove (startCrop st x y) (x + w) (y + h) =
      ⟨x, y, w, h, true⟩ := by
    simp [startCrop, onMouseMove]
  rw [hmove]
  constructor
  · intro hpos
    refine ⟨getImageData cv x y w h, ?_, rfl, rfl⟩
    dsimp only [endCrop, cropImage]
    split_ifs with h1 h2
    · omega
    · omega
    · rfl
  · intro hneg
    dsimp only [endCrop, cropImage]
    split_ifs with h1 h2
    · rfl
    · rfl
    · omega

theorem c2_amended_positive_only_witness :
    (0 < (-5 : Int) ∧ 0 < (5 : Int) →
      ∃ img : ImageData,
        (endCrop (onMouseMove (startCrop initialCrop 10 10) (10 + -5) (10 + 5))
            testCanvas).output = some img ∧
        img.width = -5 ∧ img.height = 5) ∧
    (¬(0 < (-5 : Int) ∧ 0 < (5 : Int)) →
      (endCrop (onMouseMove (startCrop initialCrop 10 10) (10 + -5) (10 + 5))
          testCanvas).output = none) :=
  c2_amended_positive_only initialCrop 10 10 (-5) 5 testCanvas
    (by decide) (by decide)

/-- Claim C5, counterexample: a crop-end with a zero width delta (crop state
`(10, 10, 0, 5)`, selecting) aborts without output, but logs nothing —
contradicting the claim that an error is logged for zero width or height:
the zero case returns from `endCrop` before `cropImage`'s `console.error`. -/
theorem c5_zero_delta_not_logged :
    (endCrop ⟨10, 10, 0, 5, true⟩ testCanvas).output = none ∧
    (endCrop ⟨10, 10, 0, 5, true⟩ testCanvas).log = [] ∧
    (endCrop ⟨10, 10, 0, 5, true⟩ testCanvas).exportInvoked = false :=
  ⟨rfl, rfl, rfl⟩

/-- Claim C5, amended: for every crop-end with invalid crop geometry (a zero
or negative width or height delta), no output image is produced and the
stored crop rectangle (start point, width, height) is unchanged; an error is
logged exactly when both deltas are non-zero (i.e. in the rejected-sign
case) — a zero delta aborts silently in `endCrop`. -/
theorem c5_amended_invalid_abort (st : CropState) (cv : Canvas)
    (hinv : st.cropWidth ≤ 0 ∨ st.cropHeight ≤ 0) :
    (endCrop st cv).output = none ∧
    (endCrop st cv).cropState.cropStartX = st.cropStartX ∧
    (endCrop st cv).cropState.cropStartY = st.cropStartY ∧
    (endCrop st cv).cropState.cropWidth = st.cropWidth ∧
    (endCrop st cv).cropState.cropHeight = st.cropHeight ∧
    ((endCrop st cv).log ≠ [] ↔ st.cropWidth ≠ 0 ∧ st.cropHeight ≠ 0) := by
  obtain ⟨sx, sy, w, h, sel⟩ := st
  dsimp only [endCrop, cropImage] at *
  split_ifs with h1
  · refine ⟨rfl, rfl, rfl, rfl, rfl, ?_⟩
    simp only [ne_eq, not_true_eq_false, false_iff]
    omega
  · refine ⟨rfl, rfl, rfl, rfl, rfl, ?_⟩
    simp only [ne_eq]
    constructor
    · intro _
      omega
    · intro _
      simp

theorem c5_amended_invalid_abort_witness :
    (endCrop ⟨10, 10, -5, 5, true⟩ testCanvas).output = none ∧
    (endCrop ⟨10, 10, -5, 5, true⟩ testCanvas).cropState.cropStartX = 10 ∧
    (endCrop ⟨10, 10, -5, 5, true⟩ testCanvas).cropState.cropStartY = 10 ∧
    (endCrop ⟨10, 10, -5, 5, true⟩ testCanvas).cropState.cropWidth = -5 ∧
    (endCrop ⟨10, 10, -5, 5, true⟩ testCanvas).cropState.cropHeight = 5 ∧
    ((endCrop ⟨10, 10, -5, 5, true⟩ testCanvas).log ≠ [] ↔
      (-5 : Int) ≠ 0 ∧ (5 : Int) ≠ 0) :=
  c5_amended_invalid_abort ⟨10, 10, -5, 5, true⟩ testCanvas (by decide)

/-- Claim C9: a click without a drag never exports an image.  Crop-start
resets the deltas to zero, so a crop-end with no intervening mouse-move
takes `endCrop`'s zero-delta branch: `cropImage` is not invoked and no
output image is produced. -/
theorem c9_click_without_drag_no_export (st : CropState) (x y : Int)
    (cv : Canvas) :
    (endCrop (startCrop st x y) cv).exportInvoked = false ∧
    (endCrop (startCrop st x y) cv).output = none :=
  ⟨rfl, rfl⟩

/-- Claim C10: `endCrop` always clears `isSelecting` (on both the valid and
the invalid branch), and a subsequent mouse-move on the resulting state
leaves the stored crop rectangle unchanged, because `onMouseMove` does
nothing while `isSelecting` is false. -/
theorem c10_endcrop_clears_selecting (st : CropState) (cv : Canvas)
    (ex ey : Int) :
    (endCrop st cv).cropState.isSelecting = false ∧
    onMouseMove (endCrop st cv).cropState ex ey = (endCrop st cv).cropState := by
  have hsel : (endCrop st cv).cropState.isSelecting = false := by
    dsimp only [endCrop]
    split_ifs <;> rfl
  refine ⟨hsel, ?_⟩
  simp [onMouseMove, hsel]
